import Mathlib

/-!
Verification of the assert-handler registry of `src/handler.h`.

The repository consists of a single header declaring a function-pointer type
`Luau_AssertHandler` and one process-wide setter `luau_set_assert_handler`.
The typedef is embedded directly from the source; the setter's body is not
among the provided sources (the header only declares it), so the setter, the
initial slot state and the invoke path are modelled from the spec, with the
process-wide slot made an explicit state value threaded through the setter.
-/

/-- From `src/handler.h` line 3:
`typedef int (*Luau_AssertHandler)(const char* expression, const char* file, int line, const char* function);`
C strings (`const char*`) are modelled as `String` and C `int` as `Int`
(no arithmetic is ever performed on these values, so overflow does not arise). -/
abbrev Luau_AssertHandler : Type := String → String → Int → String → Int

/-- The process-wide registered-handler slot. It holds at most one handler;
`none` models both the "unset" state and a registered null function pointer
(in C the two are the same null pointer value). -/
abbrev RegistrySlot : Type := Option Luau_AssertHandler

/-- Modelled from the spec: the slot is "initialized to unset at process start"
(the slot object itself is not in the provided sources, only the setter
declaration that mutates it). -/
def initialSlot : RegistrySlot := none

/-- Modelled from the spec: the body of `luau_set_assert_handler` is not in the
provided sources — `src/handler.h` line 9 only declares
`void luau_set_assert_handler(Luau_AssertHandler handler);`. Per the spec,
"the process-wide slot now holds `handler`; the previous value is discarded
with no notification". The global slot is made explicit: the function takes
the prior slot state and returns the new one; a C null handler argument is
`none`. -/
def luau_set_assert_handler (handler : Option Luau_AssertHandler)
    (_slot : RegistrySlot) : RegistrySlot :=
  handler

/-- Reading the slot back (the spec's "subsequent read of the slot"). -/
def readHandler (slot : RegistrySlot) : Option Luau_AssertHandler :=
  slot

/-- Modelled from the spec: the (out-of-scope) invoke path —
"if a handler is set, calls it with the four arguments and returns its result;
if unset, falls back to a default, unspecified failure behavior". The
unspecified unset fallback is modelled as `none`; a set handler's integer
result is returned verbatim as `some`. -/
def invokeHandler (slot : RegistrySlot) (expression file : String) (line : Int)
    (function : String) : Option Int :=
  slot.map (fun h => h expression file line function)

/-- A sequence of setter calls applied in order to a starting slot state:
every reachable registry state is produced this way. -/
def runSetters (calls : List (Option Luau_AssertHandler))
    (slot : RegistrySlot) : RegistrySlot :=
  calls.foldl (fun s h => luau_set_assert_handler h s) slot

/-- Claim C1: last registration wins — calling the setter with `a` and then
with `b` leaves the process-wide slot holding exactly `b`; `a` is fully
replaced and is no longer the slot content. -/
theorem last_registration_wins (a b : Option Luau_AssertHandler)
    (s : RegistrySlot) :
    luau_set_assert_handler b (luau_set_assert_handler a s) = b :=
  rfl

/-- Claim C2: the setter is total and cannot fail — for every handler value,
the null value included, after the call the slot holds exactly that value,
the previous value having been discarded. (Totality is witnessed by the
setter being a total function of its argument and any prior state.) -/
theorem setter_total_stores_argument (h : Option Luau_AssertHandler)
    (s : RegistrySlot) :
    luau_set_assert_handler h s = h ∧
      luau_set_assert_handler none s = none :=
  ⟨rfl, rfl⟩

/-- Claim C3: clearing by null — from every prior registry state, calling the
setter with the null value leaves the slot unset, so a subsequent read
reports no handler installed. -/
theorem clearing_by_null (s : RegistrySlot) :
    readHandler (luau_set_assert_handler none s) = none :=
  rfl

/-- Claim C4: registry invariant — the slot starts unset at process start, and
the state reachable by any sequence of setter calls ending in a call with `h`
is exactly `h`: each call atomically replaces the whole slot content, and the
slot (an `Option`) holds at most one handler at any time. -/
theorem registry_invariant :
    initialSlot = none ∧
      ∀ (calls : List (Option Luau_AssertHandler))
        (h : Option Luau_AssertHandler),
        runSetters (calls ++ [h]) initialSlot = h := by
  refine ⟨rfl, ?_⟩
  intro calls h
  simp [runSetters, List.foldl_append, luau_set_assert_handler]

/-- Claim C5: set/read round-trip — setting handler `h` and immediately
reading the slot back returns exactly `h`. -/
theorem set_read_round_trip (h : Luau_AssertHandler) (s : RegistrySlot) :
    readHandler (luau_set_assert_handler (some h) s) = some h :=
  rfl

/-- Claim C6: setter idempotence — from every prior state, calling the setter
with `h` twice yields the same slot state as calling it once: the slot holds
`h` after either call. -/
theorem setter_idempotent (h : Option Luau_AssertHandler) (s : RegistrySlot) :
    luau_set_assert_handler h (luau_set_assert_handler h s) =
        luau_set_assert_handler h s ∧
      luau_set_assert_handler h s = h :=
  ⟨rfl, rfl⟩

/-- Claim C7: invocation pass-through — with handler `h` set, invoking the
assertion path with the four arguments calls `h` on exactly those arguments
and returns its integer result verbatim, unmodified by the registry. -/
theorem invoke_pass_through (h : Luau_AssertHandler) (s : RegistrySlot)
    (e f fn : String) (l : Int) :
    invokeHandler (luau_set_assert_handler (some h) s) e f l fn =
      some (h e f l fn) :=
  rfl

/-- Claim C8: handler contract — the handler type is exactly a callable of
shape (text, text, integer, text) to integer, taking the expression text, the
file path, the line number and the function name; in particular every handler
accepts every non-negative line number (given here as a `Nat` cast to the C
`int` argument) and yields an integer status code. -/
theorem handler_contract :
    (Luau_AssertHandler = (String → String → Int → String → Int)) ∧
      ∀ (h : Luau_AssertHandler) (e f fn : String) (l : Nat),
        ∃ r : Int, h e f (l : Int) fn = r :=
  ⟨rfl, fun h e f fn l => ⟨h e f (l : Int) fn, rfl⟩⟩

/-- Claim C9: the setter is deterministic and history-independent — two setter
runs from arbitrary (possibly different) prior registry states but with the
same handler argument produce equal registry states; the outcome depends only
on the argument. -/
theorem setter_history_independent (h : Option Luau_AssertHandler)
    (s1 s2 : RegistrySlot) :
    luau_set_assert_handler h s1 = luau_set_assert_handler h s2 :=
  rfl
